import Mathlib

/-!
# Verification of the vibes-tracker collection/enrichment pipeline

Shallow embedding of the quota ledger, rate limiter, caches, ingestion and
analysis code of the `vibes-tracker` repository, together with theorems
settling the spec claims about them.

Sources embedded:
* `src/utils/logger.py` — `QuotaTracker` (quota ledger, counters, summary).
* `src/utils/rate_limiter.py` — `YouTubeAPIRateLimiter` (error classification
  and the tenacity-based retry wrapper).
* `src/ingest.py` — `resolve_channel_id`, `get_recent_videos`,
  `ingest_clusters` (collection stage).
* `src/analyze.py` — `get_transcript`, `analyze_transcript` (enrichment stage).
* `src/utils/cache_manager.py` — transcript and analysis caches.

Machine details abstracted: wall-clock time, threading, actual HTTP traffic
(modelled by outcome oracles), and file I/O (caches modelled as association
lists; an entry present in the list models an existing cache file).
-/

/-! ## Quota ledger (`src/utils/logger.py`, class `QuotaTracker`) -/


/-- State of `QuotaTracker`: the daily limit fixed at construction plus the
running counters.  `units` arguments at every call site are the positive
constants 100 and 1, so counters are modelled as `Nat`. -/

structure QuotaTracker where
  daily_limit : Nat
  youtube_units : Nat
  gemini_calls : Nat
  api_calls_throttled : Nat
  retry_attempts : Nat
  rate_limit_errors : Nat
deriving DecidableEq, Repr

/-- Constructor state `QuotaTracker(logger, daily_limit=10000)`: all counters zero. -/

def QuotaTracker.mk0 (daily_limit : Nat := 10000) : QuotaTracker :=
  ⟨daily_limit, 0, 0, 0, 0, 0⟩

/-- Predicate for `QuotaTracker.check_quota`: true iff the check raises
`QuotaExceededException`, i.e. iff `youtube_units >= daily_limit`. -/

def QuotaTracker.check_quota_raises (qt : QuotaTracker) : Bool :=
  qt.daily_limit ≤ qt.youtube_units

/-- Method `QuotaTracker.log_youtube_api_call(units, operation)`: adds `units` to the
running total, then calls `check_quota`.  Returns the post-add state and
whether `QuotaExceededException` was raised.  The state is the same on both
paths: the raising call keeps its over-limit total. -/

def QuotaTracker.log_youtube_api_call (qt : QuotaTracker) (units : Nat) :
    QuotaTracker × Bool :=
  let qt' := { qt with youtube_units := qt.youtube_units + units }
  (qt', qt'.check_quota_raises)

/-- Counter method `QuotaTracker.log_gemini_api_call`. -/

def QuotaTracker.log_gemini_api_call (qt : QuotaTracker) : QuotaTracker :=
  { qt with gemini_calls := qt.gemini_calls + 1 }

/-- Counter method `QuotaTracker.log_rate_limit_error`. -/

def QuotaTracker.log_rate_limit_error (qt : QuotaTracker) : QuotaTracker :=
  { qt with rate_limit_errors := qt.rate_limit_errors + 1 }

/-- A sequence of `log_youtube_api_call` calls, stopping at the first raised
`QuotaExceededException` (the exception propagates to the caller, so no
further `record` call runs).  Returns the final state and whether the
sequence raised. -/

def QuotaTracker.runRecords (qt : QuotaTracker) : List Nat → QuotaTracker × Bool
  | [] => (qt, false)
  | u :: rest =>
    let (qt', raised) := qt.log_youtube_api_call u
    if raised then (qt', true) else qt'.runRecords rest

/-- Summary check: `QuotaTracker.log_summary` emits the high-usage warning iff the running
total exceeds the hard-coded 8000 (`if self.youtube_units > 8000`). -/

def QuotaTracker.log_summary_warns (qt : QuotaTracker) : Bool :=
  8000 < qt.youtube_units

/-! ## Collection stage (`src/ingest.py`) -/


/-- One playlist item as returned by `playlistItems().list` (the fields the
code reads from `item["snippet"]`). -/

structure VideoItem where
  video_id : String
  title : String
  publish_date : String
deriving DecidableEq, Repr

/-- One video record as built by `get_recent_videos`. -/

structure Video where
  video_id : String
  title : String
  publish_date : String
  channel_name : String
  url : String
deriving DecidableEq, Repr

def mkVideo (channel_name : String) (it : VideoItem) : Video :=
  ⟨it.video_id, it.title, it.publish_date, channel_name,
    "https://www.youtube.com/watch?v=" ++ it.video_id⟩

/-- Oracle for the metered upstream API.  `none` models a call that raises
(HTTP error after retry exhaustion, or a response missing the expected
fields) or, for `search`, a response with no items — in all those paths the
surrounding code behaves identically. -/

structure Upstream where
  search : String → Option String
  channelsList : String → Option String
  playlistItems : String → Option (List VideoItem)

/-- Observable events of a collection run: metered upstream HTTP calls
actually issued, and `QuotaExceededException` raises by the ledger. -/

inductive IngestEvent where
  | searchCall
  | channelsCall
  | itemsCall
  | quotaRaise
deriving DecidableEq, Repr

def IngestEvent.isUpstreamCall : IngestEvent → Bool
  | .quotaRaise => false
  | _ => true

/-- Number of metered upstream calls issued strictly after the first
`QuotaExceededException` raise of the run. -/

def callsAfterFirstRaise : List IngestEvent → Nat
  | [] => 0
  | .quotaRaise :: rest => (rest.filter IngestEvent.isUpstreamCall).length
  | _ :: rest => callsAfterFirstRaise rest

/-- Lookup in a JSON-dict cache (`handle in cache` / `cache[handle]`). -/

def cacheLookup (cache : List (String × String)) (k : String) : Option String :=
  (cache.find? (fun p => p.1 == k)).map (·.2)

/-- Assignment `cache[handle] = cid`: the new binding shadows any older one. -/

def cacheInsert (cache : List (String × String)) (k v : String) :
    List (String × String) :=
  (k, v) :: cache

/-- Result of `resolve_channel_id`. -/

structure ResolveResult where
  cid : Option String
  cache : List (String × String)
  qt : QuotaTracker
  events : List IngestEvent
  escaped : Bool
deriving Repr

/-- Function `resolve_channel_id(youtube, handle, cache, ...)`: a cache hit returns the
cached id with no charge.  On a miss, `log_youtube_api_call(100, ...)` runs
BEFORE the try-block containing the search call; if that charge trips the
limit the exception escapes (`escaped = true`) without the search being
issued.  Otherwise the search is issued; a failure or empty result yields
`None` with the cache unchanged (the charge is not refunded). -/

def resolve_channel_id (up : Upstream) (cache : List (String × String))
    (handle : String) (qt : QuotaTracker) : ResolveResult :=
  match cacheLookup cache handle with
  | some cid => ⟨some cid, cache, qt, [], false⟩
  | none =>
    let (qt1, raised) := qt.log_youtube_api_call 100
    if raised then ⟨none, cache, qt1, [.quotaRaise], true⟩
    else
      match up.search handle with
      | some cid => ⟨some cid, cacheInsert cache handle cid, qt1, [.searchCall], false⟩
      | none => ⟨none, cache, qt1, [.searchCall], false⟩

/-- Result of `get_recent_videos`. -/

structure FetchResult where
  videos : List Video
  qt : QuotaTracker
  events : List IngestEvent
deriving Repr

/-- Function `get_recent_videos(youtube, channel_id, ...)`: issues
`channels().list(...).execute()` and only then charges 1 unit (the charge is
inside the wrapped call, after `execute`), then issues
`playlistItems().list(...).execute()` and charges 1 unit, then builds the
video list, skipping `"Private video"` / `"Deleted video"` titles.  Every
exception — including `QuotaExceededException` from either charge — is
caught by its own `except Exception`, which returns `[]`. -/

def get_recent_videos (up : Upstream) (cid channel_name : String)
    (qt : QuotaTracker) : FetchResult :=
  match up.channelsList cid with
  | none => ⟨[], qt, [.channelsCall]⟩
  | some pid =>
    let (qt1, r1) := qt.log_youtube_api_call 1
    if r1 then ⟨[], qt1, [.channelsCall, .quotaRaise]⟩
    else
      match up.playlistItems pid with
      | none => ⟨[], qt1, [.channelsCall, .itemsCall]⟩
      | some items =>
        let (qt2, r2) := qt1.log_youtube_api_call 1
        if r2 then ⟨[], qt2, [.channelsCall, .itemsCall, .quotaRaise]⟩
        else
          ⟨(items.filter (fun it =>
              !(it.title == "Private video" || it.title == "Deleted video"))).map
                (mkVideo channel_name),
           qt2, [.channelsCall, .itemsCall]⟩

/-- Python string `<`: code-point lexicographic comparison. -/

def strLtB : List Char → List Char → Bool
  | [], [] => false
  | [], _ :: _ => true
  | _ :: _, [] => false
  | a :: as, b :: bs =>
    if a < b then true else if b < a then false else strLtB as bs

/-- Python `a < b` on strings (`publish_date` timestamps are ISO-8601
strings, compared lexicographically by the code). -/

def pyStrLt (a b : String) : Bool := strLtB a.data b.data

/-- The incremental filter of `ingest_clusters`:
`[v for v in videos if v["publish_date"] > last_run]`. -/

def filterNewVideos (last_run : String) (videos : List Video) : List Video :=
  videos.filter (fun v => pyStrLt last_run v.publish_date)

/-- Running state of the `ingest_clusters` loop.  `videos` are tagged with
their cluster name (`v["cluster"] = cluster_name`). -/

structure RunState where
  cache : List (String × String)
  qt : QuotaTracker
  events : List IngestEvent
  videos : List (Video × String)
deriving Repr

/-- One iteration of the inner loop of `ingest_clusters` (one handle of one
cluster).  The returned flag is `true` when a `QuotaExceededException`
escaped `resolve_channel_id`, aborting the whole loop. -/

def ingestHandle (up : Upstream) (incremental : Bool) (last_run : Option String)
    (cluster handle : String) (st : RunState) : RunState × Bool :=
  let r := resolve_channel_id up st.cache handle st.qt
  if r.escaped then
    ({ st with cache := r.cache, qt := r.qt, events := st.events ++ r.events }, true)
  else
    match r.cid with
    | none =>
      ({ st with cache := r.cache, qt := r.qt, events := st.events ++ r.events }, false)
    | some cid =>
      let f := get_recent_videos up cid handle r.qt
      let vids :=
        if incremental && !((last_run.getD "") == "") then
          filterNewVideos (last_run.getD "") f.videos
        else f.videos
      ({ cache := r.cache, qt := f.qt,
         events := st.events ++ r.events ++ f.events,
         videos := st.videos ++ vids.map (fun v => (v, cluster)) }, false)

/-- The double loop of `ingest_clusters` over `(cluster, handle)` pairs in
configuration order. -/

def ingestLoop (up : Upstream) (incremental : Bool) (last_run : Option String) :
    List (String × String) → RunState → RunState × Bool
  | [], st => (st, false)
  | (cl, h) :: rest, st =>
    let (st', aborted) := ingestHandle up incremental last_run cl h st
    if aborted then (st', true) else ingestLoop up incremental last_run rest st'

/-- Outcome of `ingest_clusters`.  `result = none` models the
`QuotaExceededException` escaping the function: the `DataFrame` of collected
videos is never built or saved.  `savedCache` is the channel-id cache flushed
by the `finally` block on both paths. -/

structure IngestOutcome where
  result : Option (List (Video × String))
  savedCache : List (String × String)
  qt : QuotaTracker
  events : List IngestEvent
deriving Repr

/-- Function `ingest_clusters(clusters_config, ...)` over the flattened
`(cluster, handle)` pairs, starting from a loaded channel-id cache. -/

def ingest_clusters (up : Upstream) (incremental : Bool) (last_run : Option String)
    (pairs : List (String × String)) (cache0 : List (String × String))
    (qt0 : QuotaTracker) : IngestOutcome :=
  let (st, aborted) := ingestLoop up incremental last_run pairs ⟨cache0, qt0, [], []⟩
  ⟨if aborted then none else some st.videos, st.cache, st.qt, st.events⟩

/-! ## Metered-API rate limiter (`src/utils/rate_limiter.py`,
`YouTubeAPIRateLimiter`)

The token bucket and the backoff sleep durations are wall-clock concerns and
are not modelled; the retry control flow and the ledger counters are. -/


/-- Failures a wrapped call can raise.  `httpError status reason` models
`googleapiclient.errors.HttpError` with `error.resp.status` and the
quota-reason string extracted from the error body (`none`: the body did not
parse or carried no reason — the code then uses the empty string). -/

inductive PyError where
  | httpError (status : Nat) (reason : Option String)
  | quotaExceeded
  | otherError
deriving DecidableEq, Repr

def rateLimitReasons : List String :=
  ["quotaExceeded", "rateLimitExceeded", "userRateLimitExceeded"]

/-- Method `YouTubeAPIRateLimiter._is_rate_limit_error`: 429, or 403 whose error
body carries one of the quota/rate-limit reason codes. -/

def is_rate_limit_error : PyError → Bool
  | .httpError status reason =>
    if status == 429 then true
    else if status == 403 then rateLimitReasons.contains (reason.getD "")
    else false
  | _ => false

/-- Method `YouTubeAPIRateLimiter._should_retry`: retry iff the error is an
`HttpError` that is a rate-limit error or a server error (5xx). -/

def should_retry : PyError → Bool
  | .httpError status reason =>
    if is_rate_limit_error (.httpError status reason) then true
    else if 500 ≤ status then true
    else false
  | _ => false

/-- What escapes a tenacity-retried call. -/

inductive TenacityResult (α : Type) where
  | ok (a : α)
  | raised (e : PyError)
  | retryError (last : PyError)
deriving Repr

/-- The tenacity retry loop with `retry_if_exception(retryPred)`,
`stop_after_attempt(maxAttempts)` and the `reraise` flag: a non-retryable
error is raised unchanged at once; a retryable error on the final attempt is
re-raised unchanged when `reraise` is set, and wrapped in `RetryError`
otherwise.  `fuel` is structural recursion fuel; with `fuel = maxAttempts`
it never runs out for `attempt = 1`. -/

def tenacityRun {α : Type} (reraise : Bool) (maxAttempts : Nat)
    (retryPred : PyError → Bool) (outcome : Nat → Except PyError α)
    (attempt : Nat) : Nat → TenacityResult α
  | 0 => .retryError .otherError
  | fuel + 1 =>
    match outcome attempt with
    | .ok a => .ok a
    | .error e =>
      if !retryPred e then .raised e
      else if maxAttempts ≤ attempt then
        (if reraise then .raised e else .retryError e)
      else tenacityRun reraise maxAttempts retryPred outcome (attempt + 1) fuel

/-- The body of the wrapper built by `rate_limit_youtube_api`: run the call under the
tenacity decorator built with `reraise=True` and `stop_after_attempt
(max_retries)`; `except RetryError` increments the rate-limit-error counter
and re-raises the last underlying error.  (Because `reraise=True` makes
tenacity re-raise the underlying error instead of a `RetryError`, that
handler is unreachable.) -/

def rate_limit_youtube_api_call {α : Type} (max_retries : Nat)
    (qt : QuotaTracker) (outcome : Nat → Except PyError α) :
    Except PyError α × QuotaTracker :=
  match tenacityRun true max_retries should_retry outcome 1 max_retries with
  | .ok a => (.ok a, qt)
  | .raised e => (.error e, qt)
  | .retryError last => (.error last, qt.log_rate_limit_error)

/-! ## JSON values (`json.loads` / `json.dumps` as used by `src/analyze.py`)

The modelled subset covers objects, arrays, strings without escape
sequences, integers, booleans and `null` — everything the analysis schema
uses.  `dumps` follows `json.dumps` defaults: separators `", "` and `": "`. -/


inductive Json where
  | null
  | bool (b : Bool)
  | num (n : Int)
  | str (s : String)
  | arr (xs : List Json)
  | obj (kvs : List (String × Json))
deriving Repr

mutual

/-- Serializer `json.dumps(v)` with default arguments. -/
def Json.dumps : Json → String
  | .null => "null"
  | .bool true => "true"
  | .bool false => "false"
  | .num n => toString n
  | .str s => "\"" ++ s ++ "\""
  | .arr xs => "[" ++ String.intercalate ", " (Json.dumpsList xs) ++ "]"
  | .obj kvs => "\x7b" ++ String.intercalate ", " (Json.dumpsPairs kvs) ++ "\x7d"

def Json.dumpsList : List Json → List String
  | [] => []
  | x :: xs => x.dumps :: Json.dumpsList xs

def Json.dumpsPairs : List (String × Json) → List String
  | [] => []
  | (k, v) :: xs => ("\"" ++ k ++ "\": " ++ v.dumps) :: Json.dumpsPairs xs

end

/-- Skip JSON whitespace. -/

def skipWs : List Char → List Char
  | c :: cs => if c = ' ' ∨ c = '\n' ∨ c = '\t' ∨ c = '\r' then skipWs cs else c :: cs
  | [] => []

/-- Scan a JSON string body up to the closing quote (escape sequences are
outside the modelled subset and make the parse fail). -/

def scanStr : List Char → Option (List Char × List Char)
  | [] => none
  | c :: cs =>
    if c = '"' then some ([], cs)
    else if c = '\\' then none
    else (scanStr cs).map (fun p => (c :: p.1, p.2))

def takeDigits : List Char → List Char × List Char
  | [] => ([], [])
  | c :: cs =>
    if c.isDigit then
      let (ds, rest) := takeDigits cs
      (c :: ds, rest)
    else ([], c :: cs)

def digitsVal (ds : List Char) : Nat :=
  ds.foldl (fun n c => n * 10 + (c.toNat - '0'.toNat)) 0

mutual

/-- Recursive-descent JSON value parser; `fuel` only bounds recursion depth
and is chosen large enough by `Json.loads`. -/
def parseVal : Nat → List Char → Option (Json × List Char)
  | 0, _ => none
  | fuel + 1, cs =>
    match skipWs cs with
    | [] => none
    | c :: rest =>
      if c = 'n' then
        match rest with
        | 'u' :: 'l' :: 'l' :: r => some (.null, r)
        | _ => none
      else if c = 't' then
        match rest with
        | 'r' :: 'u' :: 'e' :: r => some (.bool true, r)
        | _ => none
      else if c = 'f' then
        match rest with
        | 'a' :: 'l' :: 's' :: 'e' :: r => some (.bool false, r)
        | _ => none
      else if c = '"' then
        (scanStr rest).map (fun p => (.str ⟨p.1⟩, p.2))
      else if c = '[' then
        match skipWs rest with
        | ']' :: r => some (.arr [], r)
        | r => (parseItems fuel r).map (fun p => (.arr p.1, p.2))
      else if c = '\x7b' then
        match skipWs rest with
        | '\x7d' :: r => some (.obj [], r)
        | r => (parseMembers fuel r).map (fun p => (.obj p.1, p.2))
      else if c = '-' then
        match takeDigits rest with
        | ([], _) => none
        | (ds, r) => some (.num (-(digitsVal ds : Int)), r)
      else if c.isDigit then
        match takeDigits (c :: rest) with
        | (ds, r) => some (.num (digitsVal ds), r)
      else none

/-- Comma-separated array items up to `]`. -/
def parseItems : Nat → List Char → Option (List Json × List Char)
  | 0, _ => none
  | fuel + 1, cs =>
    match parseVal fuel cs with
    | none => none
    | some (v, rest) =>
      match skipWs rest with
      | ',' :: r => (parseItems fuel r).map (fun p => (v :: p.1, p.2))
      | ']' :: r => some ([v], r)
      | _ => none

/-- Comma-separated `"key": value` members up to `}`. -/
def parseMembers : Nat → List Char → Option (List (String × Json) × List Char)
  | 0, _ => none
  | fuel + 1, cs =>
    match skipWs cs with
    | '"' :: r1 =>
      match scanStr r1 with
      | none => none
      | some (k, r2) =>
        match skipWs r2 with
        | ':' :: r3 =>
          match parseVal fuel r3 with
          | none => none
          | some (v, r4) =>
            match skipWs r4 with
            | ',' :: r5 => (parseMembers fuel r5).map (fun p => ((⟨k⟩, v) :: p.1, p.2))
            | '\x7d' :: r5 => some ([(⟨k⟩, v)], r5)
            | _ => none
        | _ => none
    | _ => none

end

/-- Parser entry `json.loads(s)`: parse one value, then require only whitespace after it. -/

def Json.loads (s : String) : Option Json :=
  match parseVal (2 * (s.length + 1)) s.data with
  | some (j, rest) => if (skipWs rest).isEmpty then some j else none
  | none => none

/-! ## Enrichment stage (`src/analyze.py` with `src/utils/cache_manager.py`) -/


/-- Does the needle start the haystack? (both as char lists) -/

def startsWithB : List Char → List Char → Bool
  | [], _ => true
  | _ :: _, [] => false
  | a :: as, b :: bs => a == b && startsWithB as bs

/-- Python `needle in haystack` on strings: substring containment. -/

def containsSubB (needle : List Char) : List Char → Bool
  | [] => startsWithB needle []
  | c :: cs => startsWithB needle (c :: cs) || containsSubB needle cs

/-- Python `key in x` for `x = json.loads(...)`: key membership for a dict,
element equality for a list, substring test for a string; `none` models the
`TypeError` raised for the remaining types (caught by the enclosing generic
`except Exception`). -/

def pyContains (j : Json) (k : String) : Option Bool :=
  match j with
  | .obj kvs => some (kvs.any (fun p => p.1 == k))
  | .arr xs =>
    some (xs.any (fun x => match x with | .str s => s == k | _ => false))
  | .str s => some (containsSubB k.data s.data)
  | _ => none

/-- Check `all(key in result_data for key in required)`. -/

def pyContainsAll (j : Json) : List String → Option Bool
  | [] => some true
  | k :: ks =>
    match pyContains j k with
    | none => none
    | some false => some false
    | some true => pyContainsAll j ks

/-- The `required` list of `analyze_transcript`. -/

def requiredKeys : List String :=
  ["core_themes", "theme_categories", "overall_sentiment", "framing",
   "named_entities", "one_sentence_summary"]

/-- One analysis cache entry as written by `CacheManager.save_analysis`:
`{"cached_at": <utc now>, "data": <analysis_data>}`. -/

structure AnalysisEntry where
  cached_at : String
  data : Json

/-- Reader `CacheManager.get_analysis`: the parsed cache file when
`<video_id>.json` exists, `None` otherwise. -/

def analysisLookup (cache : List (String × AnalysisEntry)) (vid : String) :
    Option AnalysisEntry :=
  (cache.find? (fun p => p.1 == vid)).map (·.2)

/-- What one `analyze_transcript` call returns and does. -/

structure AnalyzeResult where
  ret : Option String
  cache : List (String × AnalysisEntry)
  gemini_calls : Nat
  saved : Bool

/-- Function `analyze_transcript(...)`: a cache hit returns
`json.dumps(cached_analysis["data"])` with no inference call.  On a miss the
Gemini-call counter is incremented and the Ollama call issued; `response`
is the `response` text of a 200 reply (`none`: connection error or non-200
status).  The text is parsed, the required keys checked, and only then the
entry cached; the function returns the raw response text. -/

def analyze_transcript (cache : List (String × AnalysisEntry)) (now : String)
    (vid : String) (response : Option String) : AnalyzeResult :=
  match analysisLookup cache vid with
  | some entry => ⟨some entry.data.dumps, cache, 0, false⟩
  | none =>
    match response with
    | none => ⟨none, cache, 1, false⟩
    | some text =>
      match Json.loads text with
      | none => ⟨none, cache, 1, false⟩
      | some d =>
        match pyContainsAll d requiredKeys with
        | some true => ⟨some text, (vid, ⟨now, d⟩) :: cache, 1, true⟩
        | _ => ⟨none, cache, 1, false⟩

/-- What one `get_transcript` call returns and does. -/

structure TranscriptResult where
  ret : Option String
  fetched : Bool
  cache : List (String × String)

/-- Function `get_transcript(video_id, ...)`: `CacheManager.get_transcript` returns
the stored text when `<video_id>.txt` exists (`none` otherwise); then
`if cached_transcript:` treats `None` and the empty string alike, falling
through to the fetch.  A successful fetch is cached; a failed fetch returns
`None`. -/

def get_transcript (files : List (String × String)) (vid : String)
    (fetchOutcome : Option String) : TranscriptResult :=
  let cached := cacheLookup files vid
  if cached.getD "" ≠ "" then ⟨cached, false, files⟩
  else
    match fetchOutcome with
    | some s => ⟨some s, true, (vid, s) :: files⟩
    | none => ⟨none, true, files⟩

/-- A schema-complete analysis response in `json.dumps` default formatting. -/

def sampleAnalysisText : String :=
  "\x7b\"core_themes\": [\"a\"], \"theme_categories\": [\"b\"], \"overall_sentiment\": \"Neutral\", \"framing\": \"neutral\", \"named_entities\": [], \"one_sentence_summary\": \"s\"\x7d"

/-- The same response in compact formatting (as a model may well emit it). -/

def sampleCompactText : String :=
  "\x7b\"core_themes\":[\"a\"],\"theme_categories\":[\"b\"],\"overall_sentiment\":\"Neutral\",\"framing\":\"neutral\",\"named_entities\":[],\"one_sentence_summary\":\"s\"\x7d"

/-- The parsed value of both sample texts. -/

def sampleAnalysisJson : Json :=
  .obj [("core_themes", .arr [.str "a"]),
        ("theme_categories", .arr [.str "b"]),
        ("overall_sentiment", .str "Neutral"),
        ("framing", .str "neutral"),
        ("named_entities", .arr []),
        ("one_sentence_summary", .str "s")]

/-! ## Playlist-id cache (spec-modelled, for claim C3) -/


/-- Outcome of the playlist-id phase of one `get_recent_videos` call sharing
a `playlist_cache`. -/

structure PlaylistLookupResult where
  cache : List (String × String)
  qt : QuotaTracker
  charged : Bool
  raised : Bool

/-- Modelled from the spec: the packaged `vibes_tracker.core.ingest.
get_recent_videos` takes a shared `playlist_cache` parameter (exercised by
`tests/test_quota_and_caching.py::test_playlist_caching`) but the module
`vibes_tracker/core/ingest.py` is absent from the source tree.  The model
follows its in-tree analog, the playlist-id phase of
`scripts/incremental_historical_collection.py::collect_single_period`
(lines 299-316): a cache hit charges nothing; on a miss the
`channels().list` call is issued — `lookupF` returns `none` when that call
raises (caught per handle, nothing charged) and `some resItems` when a
response arrives, where `resItems` is `none` for a response whose `items`
are missing or empty (or whose id extraction fails) and `some pid`
otherwise.  On a response the fixed 1-unit charge is recorded BEFORE the
items check; only then, if the charge did not raise `QuotaExceededException`
(the per-handle handler catches it) and the response carried an id, is the
id cached.  A charged call can therefore leave the id uncached: an
item-less response or a quota-tripping charge is paid for without being
cached, and the next call for the same channel pays again. -/

def get_recent_videos_playlist (lookupF : String → Option (Option String))
    (playlist_cache : List (String × String)) (qt : QuotaTracker)
    (channel_id : String) : PlaylistLookupResult :=
  match cacheLookup playlist_cache channel_id with
  | some _ => ⟨playlist_cache, qt, false, false⟩
  | none =>
    match lookupF channel_id with
    | none => ⟨playlist_cache, qt, false, false⟩
    | some resItems =>
      let (qt1, r) := qt.log_youtube_api_call 1
      if r then ⟨playlist_cache, qt1, true, true⟩
      else
        match resItems with
        | none => ⟨playlist_cache, qt1, true, false⟩
        | some pid => ⟨cacheInsert playlist_cache channel_id pid, qt1, true, false⟩

/-- Repeated `get_recent_videos` calls sharing one `playlist_cache` within a
run; returns the final cache, ledger, and the log of channel ids whose
playlist lookup was charged. -/

def runPlaylistLookups (lookupF : String → Option (Option String)) :
    List String → List (String × String) → QuotaTracker →
      List (String × String) × QuotaTracker × List String
  | [], cache, qt => (cache, qt, [])
  | c :: rest, cache, qt =>
    let r := get_recent_videos_playlist lookupF cache qt c
    let (cache1, qt1, log) := runPlaylistLookups lookupF rest r.cache r.qt
    (cache1, qt1, (if r.charged then [c] else []) ++ log)

/-! ### Lemmas about the ledger -/


theorem QuotaTracker.log_call_units (qt : QuotaTracker) (u : Nat) :
    (qt.log_youtube_api_call u).1.youtube_units = qt.youtube_units + u := rfl

theorem QuotaTracker.log_call_raises_iff (qt : QuotaTracker) (u : Nat) :
    (qt.log_youtube_api_call u).2 = true ↔ qt.daily_limit ≤ qt.youtube_units + u := by
  simp [QuotaTracker.log_youtube_api_call, QuotaTracker.check_quota_raises]

theorem QuotaTracker.log_call_limit (qt : QuotaTracker) (u : Nat) :
    (qt.log_youtube_api_call u).1.daily_limit = qt.daily_limit := rfl

/-- Helper: `runRecords` raises exactly when some (nonempty) prefix of the
calls pushes the cumulative total to the limit. -/

theorem QuotaTracker.runRecords_raises_iff (qt : QuotaTracker) (calls : List Nat) :
    (qt.runRecords calls).2 = true ↔
      ∃ n : Nat, n < calls.length ∧
        qt.daily_limit ≤ qt.youtube_units + ((calls.take (n + 1)).sum) := by
  induction calls generalizing qt with
  | nil => simp [QuotaTracker.runRecords]
  | cons u rest ih =>
    by_cases hr : qt.daily_limit ≤ qt.youtube_units + u
    · constructor
      · intro _
        exact ⟨0, by simp, by simpa using hr⟩
      · intro _
        simp only [QuotaTracker.runRecords, QuotaTracker.log_youtube_api_call,
          QuotaTracker.check_quota_raises]
        simp [hr]
    · have hstep : qt.runRecords (u :: rest) =
          ({ qt with youtube_units := qt.youtube_units + u }).runRecords rest := by
        simp only [QuotaTracker.runRecords, QuotaTracker.log_youtube_api_call,
          QuotaTracker.check_quota_raises]
        simp [hr]
      rw [hstep, ih]
      constructor
      · rintro ⟨n, hn, hle⟩
        refine ⟨n + 1, by simpa using hn, ?_⟩
        simpa [List.take, Nat.add_assoc] using hle
      · rintro ⟨n, hn, hle⟩
        cases n with
        | zero => exact absurd (by simpa using hle) hr
        | succ m =>
          refine ⟨m, by simpa using hn, ?_⟩
          simpa [List.take, Nat.add_assoc] using hle

/-- Helper: when `runRecords` does not raise, every post-add prefix total is
below the limit and the final total is the full sum. -/

theorem QuotaTracker.runRecords_no_raise (qt : QuotaTracker) (calls : List Nat)
    (h : (qt.runRecords calls).2 = false) :
    (qt.runRecords calls).1.youtube_units = qt.youtube_units + calls.sum ∧
      ∀ n : Nat, n < calls.length →
        qt.youtube_units + ((calls.take (n + 1)).sum) < qt.daily_limit := by
  induction calls generalizing qt with
  | nil => simp [QuotaTracker.runRecords]
  | cons u rest ih =>
    by_cases hr : qt.daily_limit ≤ qt.youtube_units + u
    · exfalso
      have : (qt.runRecords (u :: rest)).2 = true := by
        simp only [QuotaTracker.runRecords, QuotaTracker.log_youtube_api_call,
          QuotaTracker.check_quota_raises]
        simp [hr]
      rw [this] at h
      simp at h
    · have hstep : qt.runRecords (u :: rest) =
          ({ qt with youtube_units := qt.youtube_units + u }).runRecords rest := by
        simp only [QuotaTracker.runRecords, QuotaTracker.log_youtube_api_call,
          QuotaTracker.check_quota_raises]
        simp [hr]
      rw [hstep] at h ⊢
      obtain ⟨hsum, hpref⟩ := ih _ h
      refine ⟨by simpa [Nat.add_assoc] using hsum, ?_⟩
      intro n hn
      cases n with
      | zero => simpa using Nat.not_le.mp hr
      | succ m =>
        have := hpref m (by simpa using hn)
        simpa [List.take, Nat.add_assoc] using this

/-! ## Claim C1 — quota ledger: add first, then check -/


/-- C1: for every sequence of `record` calls on a quota ledger with daily
limit L: each call first adds its units to the running total, then raises
`QuotaExceeded` iff the post-add cumulative total meets or exceeds L; on the
raising path the total keeps its over-limit value (no rollback), and no call
whose post-add total is below L raises. -/

theorem C1_quota_ledger_add_then_check (qt : QuotaTracker) (u : Nat) (calls : List Nat) :
    ((qt.log_youtube_api_call u).1.youtube_units = qt.youtube_units + u) ∧
    ((qt.log_youtube_api_call u).2 = true ↔ qt.daily_limit ≤ qt.youtube_units + u) ∧
    ((qt.runRecords calls).2 = true ↔
      ∃ n : Nat, n < calls.length ∧
        qt.daily_limit ≤ qt.youtube_units + ((calls.take (n + 1)).sum)) ∧
    ((qt.runRecords calls).2 = false →
      ∀ n : Nat, n < calls.length →
        qt.youtube_units + ((calls.take (n + 1)).sum) < qt.daily_limit) :=
  ⟨QuotaTracker.log_call_units qt u,
   QuotaTracker.log_call_raises_iff qt u,
   QuotaTracker.runRecords_raises_iff qt calls,
   fun h => (QuotaTracker.runRecords_no_raise qt calls h).2⟩

/-- Witness for C1 at a concrete ledger: limit 10, calls 5 then 5 — the
the post-add total of the second call reaches the limit, so the sequence raises. -/

theorem C1_quota_ledger_add_then_check_witness :
    ((QuotaTracker.mk0 10).runRecords [5, 5]).2 = true :=
  (C1_quota_ledger_add_then_check (QuotaTracker.mk0 10) 5 [5, 5]).2.2.1.mpr
    ⟨1, by decide, by decide⟩

/-! ## Claim C9 — end-of-run high-water-mark warning -/


/-- C9 counterexample: the claim says `log_summary` warns iff usage exceeds
80% of the configured budget L, for every L.  The code compares against the
hard-coded 8000 (80% of the default 10000 only): a ledger with
`daily_limit = 100` and `youtube_units = 90` is above 80% of its budget, yet
the code does not warn. -/

theorem C9_high_water_counterexample :
    ¬ (∀ qt : QuotaTracker,
        qt.log_summary_warns = true ↔ 8 * qt.daily_limit < 10 * qt.youtube_units) := by
  intro h
  have h90 := (h ⟨100, 90, 0, 0, 0, 0⟩).mpr (by norm_num)
  simp [QuotaTracker.log_summary_warns] at h90

/-- C9 amended: `log_summary` warns iff the running total exceeds the
hard-coded 8000 (80% of the default 10000 budget), regardless of the
configured `daily_limit`. -/

theorem C9_high_water_amended (qt : QuotaTracker) :
    qt.log_summary_warns = true ↔ 8000 < qt.youtube_units := by
  simp [QuotaTracker.log_summary_warns]

/-! ## Claim C10 — handle resolution charges before the search, no refund -/


lemma resolve_miss_units (up : Upstream) (cache : List (String × String))
    (h : String) (qt : QuotaTracker) (hmiss : cacheLookup cache h = none) :
    (resolve_channel_id up cache h qt).qt.youtube_units = qt.youtube_units + 100 ∧
      (resolve_channel_id up cache h qt).qt.daily_limit = qt.daily_limit := by
  unfold resolve_channel_id
  rw [hmiss]
  by_cases hr : qt.daily_limit ≤ qt.youtube_units + 100
  · simp [QuotaTracker.log_youtube_api_call, QuotaTracker.check_quota_raises, hr]
  · cases hs : up.search h <;>
      simp [QuotaTracker.log_youtube_api_call, QuotaTracker.check_quota_raises, hr, hs]

lemma resolve_miss_fail_cache (up : Upstream) (cache : List (String × String))
    (h : String) (qt : QuotaTracker) (hmiss : cacheLookup cache h = none)
    (hfail : up.search h = none) :
    (resolve_channel_id up cache h qt).cache = cache ∧
      (resolve_channel_id up cache h qt).cid = none := by
  unfold resolve_channel_id
  rw [hmiss]
  by_cases hr : qt.daily_limit ≤ qt.youtube_units + 100 <;>
    simp [QuotaTracker.log_youtube_api_call, QuotaTracker.check_quota_raises, hr, hfail]

lemma resolve_escaped_no_search (up : Upstream) (cache : List (String × String))
    (h : String) (qt : QuotaTracker) (hmiss : cacheLookup cache h = none)
    (hesc : (resolve_channel_id up cache h qt).escaped = true) :
    (resolve_channel_id up cache h qt).events = [IngestEvent.quotaRaise] := by
  unfold resolve_channel_id at hesc ⊢
  rw [hmiss] at hesc ⊢
  by_cases hr : qt.daily_limit ≤ qt.youtube_units + 100
  · simp [QuotaTracker.log_youtube_api_call, QuotaTracker.check_quota_raises, hr]
  · exfalso
    revert hesc
    cases hs : up.search h <;>
      simp [QuotaTracker.log_youtube_api_call, QuotaTracker.check_quota_raises, hr, hs]

/-- C10: for a handle absent from the channel-id cache, `resolve_channel_id`
records the 100-unit search charge before the search call is attempted (in
particular, when the charge itself trips the limit the exception escapes with
no search issued); when the search fails or returns no items the charge
remains recorded, the cache is unchanged and `None` is returned, so a second
resolution attempt for the same failing handle charges another 100 units. -/

theorem C10_resolve_charges_no_refund (up : Upstream) (cache : List (String × String))
    (h : String) (qt : QuotaTracker)
    (hmiss : cacheLookup cache h = none) (hfail : up.search h = none) :
    (resolve_channel_id up cache h qt).qt.youtube_units = qt.youtube_units + 100 ∧
    ((resolve_channel_id up cache h qt).escaped = true →
      (resolve_channel_id up cache h qt).events = [IngestEvent.quotaRaise]) ∧
    (resolve_channel_id up cache h qt).cache = cache ∧
    (resolve_channel_id up cache h qt).cid = none ∧
    (resolve_channel_id up cache h
        ((resolve_channel_id up cache h qt).qt)).qt.youtube_units =
      qt.youtube_units + 200 := by
  obtain ⟨hu, _⟩ := resolve_miss_units up cache h qt hmiss
  obtain ⟨hc, hcid⟩ := resolve_miss_fail_cache up cache h qt hmiss hfail
  refine ⟨hu, resolve_escaped_no_search up cache h qt hmiss, hc, hcid, ?_⟩
  obtain ⟨hu2, _⟩ := resolve_miss_units up cache h
    ((resolve_channel_id up cache h qt).qt) hmiss
  rw [hu2, hu]

/-- Witness for C10 at a concrete input: empty cache, a search that fails. -/

theorem C10_resolve_charges_no_refund_witness :
    (resolve_channel_id ⟨fun _ => none, fun _ => none, fun _ => none⟩ [] "@h"
        (QuotaTracker.mk0 10000)).qt.youtube_units = 0 + 100 ∧
    ((resolve_channel_id ⟨fun _ => none, fun _ => none, fun _ => none⟩ [] "@h"
        (QuotaTracker.mk0 10000)).escaped = true →
      (resolve_channel_id ⟨fun _ => none, fun _ => none, fun _ => none⟩ [] "@h"
        (QuotaTracker.mk0 10000)).events = [IngestEvent.quotaRaise]) ∧
    (resolve_channel_id ⟨fun _ => none, fun _ => none, fun _ => none⟩ [] "@h"
        (QuotaTracker.mk0 10000)).cache = [] ∧
    (resolve_channel_id ⟨fun _ => none, fun _ => none, fun _ => none⟩ [] "@h"
        (QuotaTracker.mk0 10000)).cid = none ∧
    (resolve_channel_id ⟨fun _ => none, fun _ => none, fun _ => none⟩ [] "@h"
        ((resolve_channel_id ⟨fun _ => none, fun _ => none, fun _ => none⟩ [] "@h"
          (QuotaTracker.mk0 10000)).qt)).qt.youtube_units = 0 + 200 :=
  C10_resolve_charges_no_refund ⟨fun _ => none, fun _ => none, fun _ => none⟩ [] "@h"
    (QuotaTracker.mk0 10000) (by decide) rfl

/-! ## Claim C2 — incremental collection filter boundary -/


/-- C2 counterexample: the claim says the filter keeps items with publish
timestamp ≥ T (boundary inclusive).  The code keeps
`v["publish_date"] > last_run` (strict): a video published exactly at T is
dropped. -/

theorem C2_incremental_filter_counterexample :
    ¬ (∀ (t : String) (vs : List Video) (v : Video),
        v ∈ filterNewVideos t vs ↔ v ∈ vs ∧ pyStrLt v.publish_date t = false) := by
  intro hcl
  have h := (hcl "2024-06-01T00:00:00Z"
      [⟨"a1", "t", "2024-06-01T00:00:00Z", "ch", "u"⟩]
      ⟨"a1", "t", "2024-06-01T00:00:00Z", "ch", "u"⟩).mpr
    ⟨by decide, by decide⟩
  exact absurd h (by decide)

/-- C2 amended: the incremental filter keeps exactly the items whose publish
timestamp is strictly greater than the "since" instant T (boundary
exclusive): an item published exactly at T is dropped. -/

theorem C2_incremental_filter_amended (t : String) (vs : List Video) (v : Video) :
    v ∈ filterNewVideos t vs ↔ v ∈ vs ∧ pyStrLt t v.publish_date = true := by
  simp [filterNewVideos, List.mem_filter]

/-! ## Claim C5 — QuotaExceeded mid-run is not a clean stop -/


/-- C5 counterexample: the claim says a mid-run `QuotaExceeded` stops all
further metered upstream calls and the collected items are still persisted.
With limit 1 and two cached handles, the 1-unit charge for the first
handle raises during its playlist lookup; the exception is swallowed by
the local handler of `get_recent_videos`, and the loop then issues another
metered `channels().list` call for the second handle. -/

theorem C5_quota_stop_counterexample :
    ¬ (∀ (up : Upstream) (inc : Bool) (lr : Option String)
          (pairs cache0 : List (String × String)) (qt0 : QuotaTracker),
        IngestEvent.quotaRaise ∈ (ingest_clusters up inc lr pairs cache0 qt0).events →
          callsAfterFirstRaise (ingest_clusters up inc lr pairs cache0 qt0).events = 0 ∧
          (ingest_clusters up inc lr pairs cache0 qt0).result.isSome = true) := by
  intro hcl
  have h := hcl ⟨fun _ => none, fun _ => some "p", fun _ => some []⟩ false none
      [("A", "h1"), ("A", "h2")] [("h1", "c1"), ("h2", "c2")] (QuotaTracker.mk0 1)
      (by decide)
  exact absurd h.1 (by decide)

lemma ingestHandle_cached (up : Upstream) (inc : Bool) (lr : Option String)
    (cl h : String) (st : RunState) (hc : (cacheLookup st.cache h).isSome = true) :
    (ingestHandle up inc lr cl h st).2 = false ∧
      (ingestHandle up inc lr cl h st).1.cache = st.cache := by
  obtain ⟨cid, hcid⟩ := Option.isSome_iff_exists.mp hc
  unfold ingestHandle resolve_channel_id
  rw [hcid]
  simp

lemma ingestLoop_cached (up : Upstream) (inc : Bool) (lr : Option String)
    (pairs : List (String × String)) (st : RunState)
    (hc : ∀ p ∈ pairs, (cacheLookup st.cache p.2).isSome = true) :
    (ingestLoop up inc lr pairs st).2 = false := by
  induction pairs generalizing st with
  | nil => simp [ingestLoop]
  | cons p rest ih =>
    obtain ⟨cl, h⟩ := p
    obtain ⟨hab, hcache⟩ :=
      ingestHandle_cached up inc lr cl h st (hc (cl, h) (by simp))
    simp only [ingestLoop, hab, if_false]
    have : (ingestHandle up inc lr cl h st).1 =
        (fun x => x) (ingestHandle up inc lr cl h st).1 := rfl
    refine ih _ ?_
    intro q hq
    rw [hcache]
    exact hc q (by simp [hq])

/-- C5 amended: a `QuotaExceeded` raised inside `get_recent_videos` is caught
per handle by its `except Exception`, so the run is NOT stopped: it keeps
processing the remaining handles (issuing further metered upstream calls for
them) and still completes normally, returning the items collected so far —
in particular, for every run whose handles are all in the channel-id cache
(so no resolution charge can re-raise outside a fetch), `ingest_clusters`
returns its collected item list no matter how often the quota ledger raised
during the video fetches. -/

theorem C5_amended_cached_run_completes (up : Upstream) (inc : Bool)
    (lr : Option String) (pairs cache0 : List (String × String))
    (qt0 : QuotaTracker)
    (hcached : ∀ p ∈ pairs, (cacheLookup cache0 p.2).isSome = true) :
    (ingest_clusters up inc lr pairs cache0 qt0).result.isSome = true := by
  unfold ingest_clusters
  have := ingestLoop_cached up inc lr pairs ⟨cache0, qt0, [], []⟩ hcached
  simp [this]

/-- Witness for C5 amended: one cached handle, limit 1, the playlist charge
raises mid-run, yet the run completes and returns its (empty) item list. -/

theorem C5_amended_cached_run_completes_witness :
    (ingest_clusters ⟨fun _ => none, fun _ => some "p", fun _ => some []⟩ false none
        [("A", "h1")] [("h1", "c1")] (QuotaTracker.mk0 1)).result.isSome = true :=
  C5_amended_cached_run_completes ⟨fun _ => none, fun _ => some "p", fun _ => some []⟩
    false none [("A", "h1")] [("h1", "c1")] (QuotaTracker.mk0 1) (by decide)

/-! ## Claim C4 — retry classification and exhaustion behaviour -/


/-- C4 evidence: the retry classification matches the claim (5xx, 429, or
403 with a quota/rate-limit reason; nothing else), a non-retryable failure
propagates from the first attempt, and at exhaustion the final underlying
error is re-raised — but, contrary to the claim, the rate-limit-error
counter is NOT incremented: `reraise=True` makes the `except RetryError`
branch unreachable, so the tracker is returned unchanged. -/

theorem C4_retry_classification_and_exhaustion :
    (∀ (s : Nat) (r : Option String),
        should_retry (.httpError s r) = true ↔
          (500 ≤ s ∨ s = 429 ∨
            (s = 403 ∧ rateLimitReasons.contains (r.getD "") = true))) ∧
    (should_retry .quotaExceeded = false ∧ should_retry .otherError = false) ∧
    (rate_limit_youtube_api_call (α := Unit) 3 (QuotaTracker.mk0 10000)
        (fun k => if k == 1 then .error (.httpError 404 none) else .ok ()) =
      (.error (.httpError 404 none), QuotaTracker.mk0 10000)) ∧
    (rate_limit_youtube_api_call (α := Unit) 3 (QuotaTracker.mk0 10000)
        (fun _ => .error (.httpError 500 none)) =
      (.error (.httpError 500 none), QuotaTracker.mk0 10000)) := by
  refine ⟨?_, ⟨rfl, rfl⟩, rfl, rfl⟩
  intro s r
  unfold should_retry is_rate_limit_error
  by_cases h429 : s = 429
  · subst h429
    simp
  · by_cases h403 : s = 403
    · subst h403
      by_cases hr : rateLimitReasons.contains (r.getD "") = true <;>
        simp [hr]
    · by_cases h5 : 500 ≤ s <;>
        simp [h429, h403, h5, Nat.not_le.mp]

/-! ## Claim C6 — cache writes gated by schema validation -/


/-- C6: for an uncached video id, a structured-result cache entry is written
iff the inference response text parsed as JSON and the parsed value contains
every required schema key (`core_themes`, `theme_categories`,
`overall_sentiment`, `framing`, `named_entities`, `one_sentence_summary`);
malformed or incomplete responses never reach `save_analysis` — the cache is
unchanged. -/

theorem C6_cache_write_iff_validated (cache : List (String × AnalysisEntry))
    (now vid : String) (response : Option String)
    (hmiss : analysisLookup cache vid = none) :
    ((analyze_transcript cache now vid response).saved = true ↔
      ∃ text d, response = some text ∧ Json.loads text = some d ∧
        pyContainsAll d requiredKeys = some true) ∧
    ((analyze_transcript cache now vid response).saved = false →
      (analyze_transcript cache now vid response).cache = cache) := by
  unfold analyze_transcript
  rw [hmiss]
  cases response with
  | none => simp
  | some text =>
    cases hl : Json.loads text with
    | none => simp [hl]
    | some d =>
      cases hp : pyContainsAll d requiredKeys with
      | none => simp [hl, hp]
      | some b =>
        cases b with
        | false => simp [hl, hp]
        | true => simp [hl, hp]

set_option maxRecDepth 20000 in

/-- Witness for C6: empty cache, a schema-complete response — the entry is
written. -/

theorem C6_cache_write_iff_validated_witness :
    (analyze_transcript [] "t0" "v1" (some sampleAnalysisText)).saved = true :=
  (C6_cache_write_iff_validated [] "t0" "v1" (some sampleAnalysisText) rfl).1.mpr
    ⟨sampleAnalysisText, sampleAnalysisJson, rfl, rfl, rfl⟩

/-! ## Claim C7 — cache hits short-circuit the expensive operation -/


/-- C7 counterexample: a raw-text cache entry exists with value `""`.  The
claim says every cached value — including the empty string — is returned
without invoking the fetch, but `if cached_transcript:` treats the cached
empty string as falsy and the fetch IS invoked. -/

theorem C7_cache_hit_counterexample :
    ¬ (∀ (files : List (String × String)) (vid t : String)
          (fetchOutcome : Option String),
        cacheLookup files vid = some t →
          (get_transcript files vid fetchOutcome).ret = some t ∧
          (get_transcript files vid fetchOutcome).fetched = false) := by
  intro hcl
  have h := hcl [("v1", "")] "v1" "" (some "abc") (by decide)
  exact absurd h.2 (by decide)

/-- C7 amended: a NONEMPTY cached transcript short-circuits the fetch and is
returned as-is (an empty cached transcript is treated as a miss and
re-fetched), and a structured-result cache hit always short-circuits
inference: zero inference calls, the cached record re-serialized. -/

theorem C7_cache_hit_amended (files : List (String × String)) (vid t : String)
    (fetchOutcome : Option String) (acache : List (String × AnalysisEntry))
    (now vid2 : String) (resp : Option String) (entry : AnalysisEntry)
    (hhit : cacheLookup files vid = some t) (hne : t ≠ "")
    (ahit : analysisLookup acache vid2 = some entry) :
    (get_transcript files vid fetchOutcome).ret = some t ∧
    (get_transcript files vid fetchOutcome).fetched = false ∧
    (analyze_transcript acache now vid2 resp).gemini_calls = 0 ∧
    (analyze_transcript acache now vid2 resp).ret = some entry.data.dumps := by
  unfold get_transcript analyze_transcript
  rw [hhit, ahit]
  simp [hne]

set_option maxRecDepth 20000 in

/-- Witness for C7 amended at concrete caches. -/

theorem C7_cache_hit_amended_witness :
    (get_transcript [("v1", "hello")] "v1" none).ret = some "hello" ∧
    (get_transcript [("v1", "hello")] "v1" none).fetched = false ∧
    (analyze_transcript [("v2", ⟨"t0", sampleAnalysisJson⟩)] "t1" "v2" none).gemini_calls = 0 ∧
    (analyze_transcript [("v2", ⟨"t0", sampleAnalysisJson⟩)] "t1" "v2" none).ret =
      some (AnalysisEntry.mk "t0" sampleAnalysisJson).data.dumps :=
  C7_cache_hit_amended [("v1", "hello")] "v1" "hello" none
    [("v2", ⟨"t0", sampleAnalysisJson⟩)] "t1" "v2" none ⟨"t0", sampleAnalysisJson⟩
    rfl (by decide) rfl

/-! ## Claim C8 — re-running enrichment on a cached item -/


set_option maxRecDepth 20000 in

/-- C8 counterexample: the first (cache-miss) enrichment of a compactly
formatted response returns the raw response text; the re-run makes zero
inference calls but returns `json.dumps` of the parsed cached object, which
is NOT byte-identical to the first return (default `dumps` formatting adds
spaces after `:` and `,`). -/

theorem C8_rerun_counterexample :
    (analyze_transcript (analyze_transcript [] "t0" "v1" (some sampleCompactText)).cache
        "t1" "v1" none).gemini_calls = 0 ∧
    (analyze_transcript [] "t0" "v1" (some sampleCompactText)).ret = some sampleCompactText ∧
    ¬ ((analyze_transcript (analyze_transcript [] "t0" "v1" (some sampleCompactText)).cache
          "t1" "v1" none).ret =
        (analyze_transcript [] "t0" "v1" (some sampleCompactText)).ret) :=
  ⟨rfl, rfl, by decide⟩

/-- C8 amended: re-running enrichment on a cached item makes zero inference
calls and returns the `json.dumps` re-serialization of the cached parsed
object — JSON-equal to the first (cache-miss) return, but not necessarily
byte-identical to it. -/

theorem C8_rerun_amended (cache : List (String × AnalysisEntry))
    (now now2 vid text : String) (d : Json) (resp2 : Option String)
    (hmiss : analysisLookup cache vid = none)
    (hparse : Json.loads text = some d)
    (hkeys : pyContainsAll d requiredKeys = some true) :
    (analyze_transcript cache now vid (some text)).ret = some text ∧
    (analyze_transcript cache now vid (some text)).cache = (vid, ⟨now, d⟩) :: cache ∧
    (analyze_transcript ((vid, ⟨now, d⟩) :: cache) now2 vid resp2).gemini_calls = 0 ∧
    (analyze_transcript ((vid, ⟨now, d⟩) :: cache) now2 vid resp2).ret =
      some (Json.dumps d) := by
  unfold analyze_transcript
  rw [hmiss]
  simp [hparse, hkeys, analysisLookup, List.find?]

set_option maxRecDepth 20000 in

/-- Witness for C8 amended: the first call on the pretty-printed sample
response caches its parse; the re-run returns its `dumps` with zero calls. -/

theorem C8_rerun_amended_witness :
    (analyze_transcript [] "t0" "v1" (some sampleAnalysisText)).ret =
      some sampleAnalysisText ∧
    (analyze_transcript [] "t0" "v1" (some sampleAnalysisText)).cache =
      ("v1", ⟨"t0", sampleAnalysisJson⟩) :: [] ∧
    (analyze_transcript [("v1", ⟨"t0", sampleAnalysisJson⟩)] "t1" "v1" none).gemini_calls = 0 ∧
    (analyze_transcript [("v1", ⟨"t0", sampleAnalysisJson⟩)] "t1" "v1" none).ret =
      some (Json.dumps sampleAnalysisJson) :=
  C8_rerun_amended [] "t0" "t1" "v1" sampleAnalysisText sampleAnalysisJson none
    rfl rfl rfl

/-! ## Claim C3 — playlist-id lookup charged per call until a full success -/

lemma cacheLookup_cons (p : String × String) (cache : List (String × String))
    (c : String) :
    cacheLookup (p :: cache) c =
      if p.1 == c then some p.2 else cacheLookup cache c := by
  by_cases h : p.1 == c <;> simp [cacheLookup, List.find?, h]

lemma playlist_step_preserves (lookupF : String → Option (Option String))
    (cache : List (String × String)) (qt : QuotaTracker) (c x : String)
    (hx : (cacheLookup cache x).isSome = true) :
    (cacheLookup (get_recent_videos_playlist lookupF cache qt c).cache x).isSome
      = true := by
  unfold get_recent_videos_playlist
  cases hc : cacheLookup cache c with
  | some pid => simpa using hx
  | none =>
    cases hl : lookupF c with
    | none => simpa using hx
    | some resItems =>
      by_cases hr : qt.daily_limit ≤ qt.youtube_units + 1
      · simp only [QuotaTracker.log_youtube_api_call, QuotaTracker.check_quota_raises]
        simpa [hr] using hx
      · cases resItems with
        | none =>
          simp only [QuotaTracker.log_youtube_api_call, QuotaTracker.check_quota_raises]
          simpa [hr] using hx
        | some pid =>
          simp only [QuotaTracker.log_youtube_api_call, QuotaTracker.check_quota_raises,
            cacheInsert]
          rw [decide_eq_false (by omega), if_neg (by simp)]
          rw [cacheLookup_cons]
          by_cases hcx : c == x <;> simp [hcx, hx]

lemma playlist_run_cached_no_charge (lookupF : String → Option (Option String))
    (channels : List String) (cache : List (String × String))
    (qt : QuotaTracker) (c : String)
    (hc : (cacheLookup cache c).isSome = true) :
    ((runPlaylistLookups lookupF channels cache qt).2.2.count c) = 0 := by
  induction channels generalizing cache qt with
  | nil => simp [runPlaylistLookups]
  | cons x rest ih =>
    have hpres := playlist_step_preserves lookupF cache qt x c hc
    have hnc : (get_recent_videos_playlist lookupF cache qt x).charged = true →
        x ≠ c := by
      intro hch hxc
      subst hxc
      obtain ⟨v, hv⟩ := Option.isSome_iff_exists.mp hc
      unfold get_recent_videos_playlist at hch
      rw [hv] at hch
      simp at hch
    simp only [runPlaylistLookups]
    rw [List.count_append]
    by_cases hch : (get_recent_videos_playlist lookupF cache qt x).charged = true
    · rw [if_pos hch]
      have hxc := hnc hch
      simp only [List.count_cons, List.count_nil]
      rw [ih _ _ hpres]
      simp [hxc]
    · rw [if_neg hch]
      simp only [List.count_nil]
      rw [ih _ _ hpres]

lemma playlist_step_bounds (lookupF : String → Option (Option String))
    (cache : List (String × String)) (qt : QuotaTracker) (c : String) :
    (get_recent_videos_playlist lookupF cache qt c).qt.youtube_units
        ≤ qt.youtube_units + 1 ∧
    (get_recent_videos_playlist lookupF cache qt c).qt.daily_limit
        = qt.daily_limit := by
  unfold get_recent_videos_playlist
  cases hc : cacheLookup cache c with
  | some pid => simp
  | none =>
    cases hl : lookupF c with
    | none => simp
    | some resItems =>
      by_cases hr : qt.daily_limit ≤ qt.youtube_units + 1
      · simp [QuotaTracker.log_youtube_api_call, QuotaTracker.check_quota_raises, hr]
      · cases resItems <;>
          simp [QuotaTracker.log_youtube_api_call, QuotaTracker.check_quota_raises, hr]

lemma playlist_step_charged_caches (lookupF : String → Option (Option String))
    (cache : List (String × String)) (qt : QuotaTracker) (c : String)
    (hroom : qt.youtube_units + 1 < qt.daily_limit)
    (hitems : lookupF c ≠ some none) :
    (get_recent_videos_playlist lookupF cache qt c).charged = true →
      (cacheLookup (get_recent_videos_playlist lookupF cache qt c).cache c).isSome
        = true := by
  unfold get_recent_videos_playlist
  cases hc : cacheLookup cache c with
  | some pid => simp
  | none =>
    cases hl : lookupF c with
    | none => simp
    | some resItems =>
      cases resItems with
      | none => exact absurd hl hitems
      | some pid =>
        have hnr : ¬ (qt.daily_limit ≤ qt.youtube_units + 1) := by omega
        simp [QuotaTracker.log_youtube_api_call, QuotaTracker.check_quota_raises,
          hnr, cacheLookup_cons, cacheInsert]

/-- C3 counterexample (spec-modelled): the claim says the playlist lookup is
charged at most once per channel id across calls sharing one cache.  In the
faithful model of `collect_single_period` the 1-unit charge is recorded
before the `items` check, so a channel whose response carries no items is
charged on EVERY call while staying uncached — here twice for the same
channel, well within quota. -/

theorem C3_playlist_lookup_counterexample :
    ¬ (∀ (lookupF : String → Option (Option String)) (channels : List String)
          (cache : List (String × String)) (qt : QuotaTracker) (c : String),
        (runPlaylistLookups lookupF channels cache qt).2.2.count c ≤ 1) := by
  intro hcl
  have h := hcl (fun _ => some none) ["c", "c"] [] (QuotaTracker.mk0 100) "c"
  exact absurd h (by decide)

/-- C3 amended (spec-modelled): a call that finds the channel id in the
shared `playlist_cache` charges nothing — once an id is cached, the rest of
the run charges zero for it; and the lookup is charged at most once per
channel id provided the run stays under quota and the channel does not hit
the charged-but-uncached path (a response without items, which is paid for
without caching and so is paid again on every later call). -/

theorem C3_playlist_lookup_amended (lookupF : String → Option (Option String))
    (channels : List String) (cache : List (String × String))
    (qt : QuotaTracker) (c : String)
    (hroom : qt.youtube_units + channels.length < qt.daily_limit)
    (hitems : lookupF c ≠ some none) :
    ((runPlaylistLookups lookupF channels cache qt).2.2.count c ≤ 1) ∧
    ((cacheLookup cache c).isSome = true →
      (runPlaylistLookups lookupF channels cache qt).2.2.count c = 0) := by
  refine ⟨?_, playlist_run_cached_no_charge lookupF channels cache qt c⟩
  induction channels generalizing cache qt with
  | nil => simp [runPlaylistLookups]
  | cons x rest ih =>
    obtain ⟨hu, hlim⟩ := playlist_step_bounds lookupF cache qt x
    have hroom1 : qt.youtube_units + 1 < qt.daily_limit := by
      simp only [List.length_cons] at hroom
      omega
    have hroomr :
        (get_recent_videos_playlist lookupF cache qt x).qt.youtube_units
          + rest.length <
        (get_recent_videos_playlist lookupF cache qt x).qt.daily_limit := by
      rw [hlim]
      simp only [List.length_cons] at hroom
      omega
    have hih := ih (get_recent_videos_playlist lookupF cache qt x).cache
      (get_recent_videos_playlist lookupF cache qt x).qt hroomr
    simp only [runPlaylistLookups]
    rw [List.count_append]
    by_cases hch : (get_recent_videos_playlist lookupF cache qt x).charged = true
    · rw [if_pos hch]
      by_cases hxc : x = c
      · subst hxc
        rw [playlist_run_cached_no_charge lookupF rest _ _ x
          (playlist_step_charged_caches lookupF cache qt x hroom1 hitems hch)]
        simp
      · have h0 : List.count c [x] = 0 := by
          simp [List.count_cons, Ne.symm hxc]
        rw [h0]
        simpa using hih
    · rw [if_neg hch]
      simpa using hih

/-- Witness for C3 amended at a concrete run: three calls whose lookups all
return an id, one channel already cached. -/

theorem C3_playlist_lookup_amended_witness :
    ((runPlaylistLookups (fun _ => some (some "p")) ["c1", "c0", "c1"]
        [("c0", "p0")] (QuotaTracker.mk0 100)).2.2.count "c0" ≤ 1) ∧
    ((cacheLookup [("c0", "p0")] "c0").isSome = true →
      (runPlaylistLookups (fun _ => some (some "p")) ["c1", "c0", "c1"]
        [("c0", "p0")] (QuotaTracker.mk0 100)).2.2.count "c0" = 0) :=
  C3_playlist_lookup_amended (fun _ => some (some "p")) ["c1", "c0", "c1"]
    [("c0", "p0")] (QuotaTracker.mk0 100) "c0" (by decide) (by decide)
